import Mathlib

/-!
# Verification of the ella newman admin extensions and their test helpers

Shallow embedding of the two source files:

* `ella/newman/admin.py` — admin classes (`DevMessageAdmin.save_model`) and
  the registered date-field list-filter handler
  (`customized_date_field_filter`).
* `tests/example_project/tests/test_newman/helpers.py` — the browser-driven
  test helpers (`DateTimeAssert`, `fill_fields`, `login`, `verify_form`,
  `add_error`, `get_formatted_form_errors`).

Modelling choices:

* A calendar date is its proleptic-Gregorian day ordinal (an `Int`, day 0 =
  1970-01-01); a datetime is a count of seconds (an `Int`).  `daysFromCivil`
  and `civilFromDays` are the standard conversions between a
  year/month/day triple and the ordinal, mirroring the conversions inside
  Python's `datetime` module.  A `timedelta` is its total number of seconds
  (for datetimes) or days (for dates).
* `datetime.strptime` raising `ValueError` is modelled by an `Option`
  result: `none` means the exception is raised.  Only the format string the
  repository actually configures (`"%Y-%m-%d %H:%M"`) is given a parse.
* The selenium browser driver is a record of fallible operations
  (`Except ε _`); an `Except.error` models a driver exception.  Test-helper
  methods return `Except` values, with `PyErr` collecting the exception
  kinds a helper itself can raise on top of driver errors.
* Python `dict`s are modelled as insertion-ordered association lists;
  assignment to an existing key replaces the entry in place.
-/

/-- Day ordinal of a proleptic-Gregorian year/month/day (Howard Hinnant's
`days_from_civil`), day 0 = 1970-01-01.  Mirrors the date-to-ordinal
conversion used by Python's `datetime.date`. -/
def daysFromCivil (y m d : Int) : Int :=
  let yAdj : Int := if m ≤ 2 then y - 1 else y
  let era : Int := (if 0 ≤ yAdj then yAdj else yAdj - 399).ediv 400
  let yoe : Int := yAdj - era * 400
  let mp : Int := (m + 9).emod 12
  let doy : Int := (153 * mp + 2).ediv 5 + d - 1
  let doe : Int := yoe * 365 + yoe.ediv 4 - yoe.ediv 100 + doy
  era * 146097 + doe - 719468

/-- Inverse conversion (`civil_from_days`): the year/month/day triple of a
day ordinal. -/
def civilFromDays (z0 : Int) : Int × Int × Int :=
  let z : Int := z0 + 719468
  let era : Int := (if 0 ≤ z then z else z - 146096).ediv 146097
  let doe : Int := z - era * 146097
  let yoe : Int := (doe - doe.ediv 1460 + doe.ediv 36524 - doe.ediv 146096).ediv 365
  let y : Int := yoe + era * 400
  let doy : Int := doe - (365 * yoe + yoe.ediv 4 - yoe.ediv 100)
  let mp : Int := (5 * doy + 2).ediv 153
  let d : Int := doy - (153 * mp + 2).ediv 5 + 1
  let m : Int := if mp < 10 then mp + 3 else mp - 9
  (if m ≤ 2 then y + 1 else y, m, d)

/-- Number of days in a month of the proleptic-Gregorian calendar, as
validated by Python's `datetime` constructor. -/
def daysInMonth (y m : Int) : Int :=
  if m = 2 then
    if y.emod 4 = 0 ∧ (y.emod 100 ≠ 0 ∨ y.emod 400 = 0) then 29 else 28
  else if m = 4 ∨ m = 6 ∨ m = 9 ∨ m = 11 then 30
  else 31

/-- `timedelta(minutes=n)` as a number of seconds. -/
def timedelta_minutes (n : Int) : Int := 60 * n

/-- Left-pad a numeral with zeros (`%02d`-style formatting). -/
def zeroPad (width : Nat) (n : Nat) : String :=
  let s := toString n
  if s.length < width then String.mk (List.replicate (width - s.length) (Char.ofNat 48)) ++ s
  else s

/-- `date.strftime('%Y-%m-%d')` on a day ordinal. -/
def dateFormatYMD (ordinal : Int) : String :=
  let c := civilFromDays ordinal
  zeroPad 4 c.1.toNat ++ "-" ++ zeroPad 2 c.2.1.toNat ++ "-" ++ zeroPad 2 c.2.2.toNat

/-- `str(datetime)` on a seconds count: `YYYY-MM-DD HH:MM:SS` (Python omits
microseconds when they are zero, as they always are here). -/
def datetimeStr (t : Int) : String :=
  let sod := (t.emod 86400).toNat
  dateFormatYMD (t.ediv 86400) ++ " " ++ zeroPad 2 (sod / 3600) ++ ":" ++
    zeroPad 2 (sod % 3600 / 60) ++ ":" ++ zeroPad 2 (sod % 60)

/-- Split a character list at every occurrence of the separator
(structurally recursive counterpart of splitting a string on a
single-character separator). -/
def splitOnChar (sep : Char) : List Char → List (List Char)
  | [] => [[]]
  | c :: cs =>
    match splitOnChar sep cs with
    | [] => if c = sep then [[], []] else [[c]]
    | g :: gs => if c = sep then [] :: g :: gs else (c :: g) :: gs

/-- Read a digit sequence as a number; `none` unless the field is nonempty,
all digits, and at most `maxLen` characters wide (`strptime` numeric
fields are bounded-width). -/
def parseField (maxLen : Nat) (cs : List Char) : Option Nat :=
  if 0 < cs.length ∧ cs.length ≤ maxLen ∧ cs.all Char.isDigit then
    some (cs.foldl (fun n c => n * 10 + (c.toNat - 48)) 0)
  else none

/-- `datetime.strptime(s, "%Y-%m-%d %H:%M")`, returning the parsed datetime
as a seconds count, or `none` where Python raises `ValueError`: the shape
must match, `%Y` is exactly four digits, the other fields at most two, and
the values must form a valid timestamp (month 1–12, day valid for the
month, hour ≤ 23, minute ≤ 59, year ≥ 1). -/
def strptimeYMDHM (s : String) : Option Int :=
  match splitOnChar (Char.ofNat 32) s.data with
  | [datePart, timePart] =>
    match splitOnChar (Char.ofNat 45) datePart, splitOnChar (Char.ofNat 58) timePart with
    | [ys, ms, ds], [hs, mins] => do
      let y ← if ys.length = 4 then parseField 4 ys else none
      let mo ← parseField 2 ms
      let d ← parseField 2 ds
      let h ← parseField 2 hs
      let mi ← parseField 2 mins
      if 1 ≤ y ∧ 1 ≤ mo ∧ (mo : Int) ≤ 12 ∧ 1 ≤ d ∧
          (d : Int) ≤ daysInMonth (y : Int) (mo : Int) ∧ h ≤ 23 ∧ mi ≤ 59 then
        some (daysFromCivil (y : Int) (mo : Int) (d : Int) * 86400 + (h : Int) * 3600 + (mi : Int) * 60)
      else none
    | _, _ => none
  | _ => none

/-- `datetime.strptime(value, format)`.  Only the format string configured
anywhere in the repository (`"%Y-%m-%d %H:%M"`, the `DateTimeAssert`
default) is modelled; `none` models the raised `ValueError`. -/
def strptime (date_format value : String) : Option Int :=
  if date_format = "%Y-%m-%d %H:%M" then strptimeYMDHM value else none

/-- `DateTimeAssert` (helpers.py): fuzzy datetime form assertion.
`expected_value` is a datetime (seconds count), `allowed_delta` a
`timedelta` (seconds). -/
structure DateTimeAssert where
  expected_value : Int
  value_function_name : String
  date_format : String
  allowed_delta : Int
deriving DecidableEq, Repr

/-- `DateTimeAssert.__init__`: `self.allowed_delta = allowed_delta or
timedelta(minutes=1)` — Python's `or` takes the default when
`allowed_delta` is falsy, i.e. absent (`None`) or the zero `timedelta`. -/
def DateTimeAssert.init (expected_value : Int) (value_function_name : String)
    (date_format : String) (allowed_delta : Option Int) : DateTimeAssert :=
  { expected_value := expected_value
    value_function_name := value_function_name
    date_format := date_format
    allowed_delta :=
      match allowed_delta with
      | some d => if d = 0 then timedelta_minutes 1 else d
      | none => timedelta_minutes 1 }

/-- `DateTimeAssert.is_equal`: parse the retrieved string with `strptime`
(`none` = the `ValueError` propagates), then compare against
`expected_value` within `allowed_delta` on either side. -/
def DateTimeAssert.is_equal (self : DateTimeAssert) (retrieved_value : String) : Option Bool :=
  match strptime self.date_format retrieved_value with
  | none => none
  | some retrieved_time =>
    if retrieved_time > self.expected_value then
      some (decide (retrieved_time - self.expected_value ≤ self.allowed_delta))
    else
      some (decide (self.expected_value - retrieved_time ≤ self.allowed_delta))

/-! ## admin.py -/

/-- `str.startswith` (and the semantic content of `strftime`-formatted keys
starting with a given piece): list-of-characters prefix test. -/
def startswith (s pat : String) : Bool := pat.data.isPrefixOf s.data

/-- `ugettext`: no translation catalog ships with the repository, so the
translation function is the identity on the message string. -/
def ugettext (s : String) : String := s

/-- The type of the model field a filter is attached to.  The handler is
registered for `models.DateField` instances; `models.DateTimeField` is a
subclass of `DateField`, so both reach the handler, which distinguishes
them with `isinstance(fspec.field, models.DateTimeField)`. -/
inductive FieldType where
  | dateField
  | dateTimeField
deriving DecidableEq, Repr

/-- The filter-spec bundle mutated by `customized_date_field_filter`.
`params` are the submitted query parameters, `links` the selectable
choices, each a title paired with its query-parameter constraints.
`model` and `model_admin` are read into locals by the handler but never
used; they are kept as opaque strings. -/
structure FilterSpec where
  params : List (String × String)
  model : String
  model_admin : String
  field_path : String
  field : FieldType
  field_generic : String
  date_params : List (String × String)
  links : List (String × List (String × String))
deriving DecidableEq, Repr

/-- `customized_date_field_filter` (admin.py): the registered `DateField`
list-filter handler.  `today` is the day ordinal `datetime.date.today()`
returns; the function yields the mutated filter spec together with the
handler's return value. -/
def customized_date_field_filter (today : Int) (fspec : FilterSpec) : FilterSpec × Bool :=
  let field_generic := fspec.field_path ++ "__"
  let date_params := fspec.params.filter (fun kv => startswith kv.1 field_generic)
  let one_week_ago : Int := today - 7
  let today_str : String :=
    if fspec.field = FieldType.dateTimeField then dateFormatYMD today ++ " 23:59:59"
    else dateFormatYMD today
  let links : List (String × List (String × String)) :=
    [ (ugettext "Any date", []),
      (ugettext "Today",
        [(fspec.field_path ++ "__year", toString ((civilFromDays today).1)),
         (fspec.field_path ++ "__month", toString ((civilFromDays today).2.1)),
         (fspec.field_path ++ "__day", toString ((civilFromDays today).2.2))]),
      (ugettext "Past 7 days",
        [(fspec.field_path ++ "__gte", dateFormatYMD one_week_ago),
         (fspec.field_path ++ "__lte", today_str)]),
      (ugettext "This month",
        [(fspec.field_path ++ "__year", toString ((civilFromDays today).1)),
         (fspec.field_path ++ "__month", toString ((civilFromDays today).2.1))]),
      (ugettext "This year",
        [(fspec.field_path ++ "__year", toString ((civilFromDays today).1))]) ]
  ({ fspec with field_generic := field_generic, date_params := date_params, links := links },
   true)

/-- The slice of a `DevMessage` record that `DevMessageAdmin.save_model`
touches.  The model class itself lives outside this repository
(`ella.newman.models`); `id` is `None` before the first database save and
an integer afterwards. -/
structure DevMessage where
  id : Option Int
  author : String
deriving DecidableEq, Repr

/-- Python truthiness of the `id` attribute: `None` and `0` are falsy. -/
def pyTruthyId : Option Int → Bool
  | none => false
  | some n => decide (n ≠ 0)

/-- `DevMessageAdmin.save_model`: `if not obj.id: obj.author =
request.user` then `obj.save()`; the result is the state the object is
saved with. -/
def DevMessageAdmin.save_model (request_user : String) (obj : DevMessage) : DevMessage :=
  if !pyTruthyId obj.id then { obj with author := request_user } else obj

/-! ## helpers.py: the browser driver and the test-helper methods -/

/-- The selenium remote-control client, as the test helpers use it: a
record of fallible operations.  `ε` is the type of driver exceptions;
`.error` models a raised one.  `open` and `type` are Lean keywords, hence
the trailing underscores. -/
structure Driver (ε : Type) where
  open_ : String → Except ε Unit
  type_ : String → String → Except ε Unit
  click : String → Except ε Unit
  get_text : String → Except ε String
  get_value : String → Except ε String
  wait_for_element_present : String → Except ε Unit
  wait_for_page_to_load : Nat → Except ε Unit

/-- `NewmanTestCase.USER_USERNAME`. -/
def USER_USERNAME : String := "superman"

/-- `NewmanTestCase.USER_PASSWORD`. -/
def USER_PASSWORD : String := "xxx"

/-- `NewmanTestCase.NEWMAN_URI`. -/
def NEWMAN_URI : String := "/newman/"

/-- `self.elements['pages']['login']['submit']`. -/
def login_submit_locator : String := "//input[@type=\x27submit\x27]"

/-- `self.elements['controls']['suggester_selected']`, with the `%(field)s`
substitution applied. -/
def suggester_selected (field : String) : String :=
  "//input[@id=\x27id_" ++ field ++ "\x27]/../ul/li[@class=\x27suggest-selected-item\x27]"

/-- The per-item locator `verify_form` builds from `suggester_selected`:
`... + "[%(number)s]"` (xpath indexes from 1). -/
def suggester_selected_item (field : String) (number : Nat) : String :=
  suggester_selected field ++ "[" ++ toString number ++ "]"

/-- `NewmanTestCase.login`: open the admin, type the credentials, submit,
wait for the page.  The trailing fixed `sleep(0.2)` has no observable
effect in the model.  Any driver exception propagates. -/
def login {ε : Type} (d : Driver ε) : Except ε Unit :=
  match d.open_ NEWMAN_URI with
  | .error e => .error e
  | .ok _ =>
    match d.type_ "id_username" USER_USERNAME with
    | .error e => .error e
    | .ok _ =>
      match d.type_ "id_password" USER_PASSWORD with
      | .error e => .error e
      | .ok _ =>
        match d.click login_submit_locator with
        | .error e => .error e
        | .ok _ => d.wait_for_page_to_load 30000

/-- `NewmanTestCase.fill_fields`: type each value into `id_<key>`.  Any
driver exception propagates. -/
def fill_fields {ε : Type} (d : Driver ε) : List (String × String) → Except ε Unit
  | [] => .ok ()
  | (key, value) :: rest =>
    match d.type_ ("id_" ++ key) value with
    | .error e => .error e
    | .ok _ => fill_fields d rest

/-- The exceptions `verify_form` itself can surface: a driver exception
passed through unmodified, `strptime`'s `ValueError`, `getattr`'s
`AttributeError` for an unknown driver attribute, and the final
`AssertionError`. -/
inductive PyErr (ε : Type) where
  | driverError (e : ε)
  | valueError
  | attributeError
  | assertionError (msg : String)
deriving DecidableEq, Repr

/-- Base `FormAssertSpec`: exact string comparison against
`expected_value`, retrieved with the driver method named
`value_function_name`. -/
structure FormAssertSpec where
  expected_value : String
  value_function_name : String
deriving DecidableEq, Repr

/-- A value of (a subclass of) `FormAssertSpec`, as `isinstance(spec,
FormAssertSpec)` sees it: either the base class or `DateTimeAssert`. -/
inductive AssertSpec where
  | base (a : FormAssertSpec)
  | dtime (a : DateTimeAssert)
deriving DecidableEq, Repr

/-- Dynamic dispatch of `spec.value_function_name`. -/
def AssertSpec.value_function_name : AssertSpec → String
  | .base a => a.value_function_name
  | .dtime a => a.value_function_name

/-- Dynamic dispatch of `spec.is_equal(retrieved)`; the base class never
raises, the `DateTimeAssert` override raises (`none`) when `strptime`
does. -/
def AssertSpec.is_equal : AssertSpec → String → Option Bool
  | .base a, retrieved => some (retrieved == a.expected_value)
  | .dtime a, retrieved => a.is_equal retrieved

/-- A Python value as it appears in the `expected` slot of an error entry:
a plain string, a list of strings, or a datetime. -/
inductive PyValue where
  | str (s : String)
  | strList (l : List String)
  | dtime (t : Int)
deriving DecidableEq, Repr

/-- `spec.expected_value` of an assertion spec, as stored in an error
entry. -/
def AssertSpec.expected : AssertSpec → PyValue
  | .base a => .str a.expected_value
  | .dtime a => .dtime a.expected_value

/-- One value of the `data` dict `verify_form` receives: an assertion
spec, a list (suggester fields), or (the `else` branch) a plain string. -/
inductive FormSpec where
  | assertSpec (a : AssertSpec)
  | listSpec (l : List String)
  | strSpec (v : String)
deriving DecidableEq, Repr

/-- `NewmanTestCase.add_error`: `errors[field] = {'expected': ...,
'retrieved': ...}` on the insertion-ordered dict — replace in place when
the key exists, append otherwise. -/
def add_error (errors : List (String × PyValue × String)) (field : String)
    (expected : PyValue) (retrieved : String) : List (String × PyValue × String) :=
  match errors with
  | [] => [(field, expected, retrieved)]
  | (f, e, r) :: rest =>
    if f = field then (field, expected, retrieved) :: rest
    else (f, e, r) :: add_error rest field expected retrieved

/-- The `%s`-rendering of a value in an error message, after
`get_formatted_form_errors` has replaced a list by the concatenation of
its items (`u"".join`). -/
def renderValue : PyValue → String
  | .str s => s
  | .strList l => String.join l
  | .dtime t => datetimeStr t

/-- `NewmanTestCase.get_formatted_form_errors`: one message line per error
entry, joined with newlines.  Every `retrieved` slot stored by
`verify_form` is a string the driver returned, so only the `expected`
slot can be a list. -/
def get_formatted_form_errors (errors : List (String × PyValue × String)) : String :=
  String.intercalate "\n" (errors.map fun entry =>
    "Form validation for field " ++ entry.1 ++ " was expecting " ++
      renderValue entry.2.1 ++ ", but got " ++ entry.2.2)

/-- `getattr(self.selenium, spec.value_function_name)`: the two driver
attributes the tests name are value getters; any other name raises
`AttributeError` (`none`). -/
def getattrValueFunction {ε : Type} (d : Driver ε) (name : String) :
    Option (String → Except ε String) :=
  if name = "get_value" then some d.get_value
  else if name = "get_text" then some d.get_text
  else none

/-- The inner `for i in xrange(0, len(spec))` loop of `verify_form`'s list
branch, carried out from position `i` on the remaining items:
`get_text` each suggester item and record a mismatch against the whole
expected list. -/
def listCheck {ε : Type} (d : Driver ε) (field : String) (spec : List String) :
    List String → Nat → List (String × PyValue × String) →
    Except (PyErr ε) (List (String × PyValue × String))
  | [], _, errors => .ok errors
  | v :: rest, i, errors =>
    match d.get_text (suggester_selected_item field (i + 1)) with
    | .error e => .error (.driverError e)
    | .ok text =>
      listCheck d field spec rest (i + 1)
        (if text ≠ v then add_error errors field (.strList spec) text else errors)

/-- One iteration of `verify_form`'s `for field in data` loop: the three
`isinstance` branches of the source. -/
def checkField {ε : Type} (d : Driver ε) (errors : List (String × PyValue × String))
    (field : String) : FormSpec → Except (PyErr ε) (List (String × PyValue × String))
  | .assertSpec a =>
    match getattrValueFunction d a.value_function_name with
    | none => .error .attributeError
    | some f =>
      match f ("id_" ++ field) with
      | .error e => .error (.driverError e)
      | .ok text =>
        match a.is_equal text with
        | none => .error .valueError
        | some b => .ok (if b then errors else add_error errors field a.expected text)
  | .listSpec l => listCheck d field l l 0 errors
  | .strSpec v =>
    match d.get_value ("id_" ++ field) with
    | .error e => .error (.driverError e)
    | .ok text => .ok (if text ≠ v then add_error errors field (.str v) text else errors)

/-- The whole `for field in data` loop of `verify_form`, threading the
`errors` dict. -/
def verifyLoop {ε : Type} (d : Driver ε) :
    List (String × FormSpec) → List (String × PyValue × String) →
    Except (PyErr ε) (List (String × PyValue × String))
  | [], errors => .ok errors
  | (field, spec) :: rest, errors =>
    match checkField d errors field spec with
    | .error e => .error e
    | .ok errors2 => verifyLoop d rest errors2

/-- `NewmanTestCase.verify_form`: run the loop from an empty `errors`
dict, then `raise AssertionError(self.get_formatted_form_errors(errors))`
when any error was collected. -/
def verify_form {ε : Type} (d : Driver ε) (data : List (String × FormSpec)) :
    Except (PyErr ε) Unit :=
  match verifyLoop d data [] with
  | .error e => .error e
  | .ok errors =>
    if errors.length > 0 then .error (.assertionError (get_formatted_form_errors errors))
    else .ok ()

/-- A driver whose calls never raise: `get_value` answers with `g`,
`get_text` with `t`.  Used to state properties of `verify_form` under
normal driver operation. -/
def pureDriver {ε : Type} (g t : String → String) : Driver ε where
  open_ := fun _ => .ok ()
  type_ := fun _ _ => .ok ()
  click := fun _ => .ok ()
  get_text := fun x => .ok (t x)
  get_value := fun x => .ok (g x)
  wait_for_element_present := fun _ => .ok ()
  wait_for_page_to_load := fun _ => .ok ()

/-! ### Specification-level characterizations

The following definitions restate, in the words of the specification, what
a "mismatch" for one field is and which error entry it contributes; the
theorems below compare `verify_form` against them. -/

/-- Specification-level: the text a value getter named `name` retrieves
from the pure driver. -/
def retrieveByName (g t : String → String) (name locator : String) : String :=
  if name = "get_text" then t locator else g locator

/-- Specification-level: the index of the last mismatched item of a
list-valued expectation, scanning the remaining items from position
`i`. -/
def lastMismatchIdx (t : String → String) (field : String) :
    List String → Nat → Option Nat
  | [], _ => none
  | v :: rest, i =>
    match lastMismatchIdx t field rest (i + 1) with
    | some j => some j
    | none => if t (suggester_selected_item field (i + 1)) ≠ v then some i else none

/-- Specification-level: does the field's retrieved value mismatch its
expected value? -/
def specMismatches (g t : String → String) (field : String) : FormSpec → Bool
  | .assertSpec a =>
    !(a.is_equal (retrieveByName g t a.value_function_name ("id_" ++ field)) == some true)
  | .listSpec l => (lastMismatchIdx t field l 0).isSome
  | .strSpec v => g ("id_" ++ field) != v

/-- Specification-level: the retrieved value recorded for a mismatched
field (for a list-valued expectation, the text of the last mismatched
item). -/
def specRetrieved (g t : String → String) (field : String) : FormSpec → String
  | .assertSpec a => retrieveByName g t a.value_function_name ("id_" ++ field)
  | .listSpec l =>
    match lastMismatchIdx t field l 0 with
    | some j => t (suggester_selected_item field (j + 1))
    | none => ""
  | .strSpec _ => g ("id_" ++ field)

/-- Specification-level: the expected value recorded for a field. -/
def specExpected : FormSpec → PyValue
  | .assertSpec a => a.expected
  | .listSpec l => .strList l
  | .strSpec v => .str v

/-- Specification-level: the error entry one field contributes to the
failure message, if any. -/
def specErrorEntry (g t : String → String) (field : String) (sp : FormSpec) :
    Option (String × PyValue × String) :=
  if specMismatches g t field sp then some (field, specExpected sp, specRetrieved g t field sp)
  else none

/-- A field check that cannot raise on the pure driver: the assertion
spec's value getter is an attribute the driver has, and a `DateTimeAssert`
parses the text it retrieves.  List-valued and plain expectations never
raise. -/
def specOk (g t : String → String) (field : String) : FormSpec → Bool
  | .assertSpec a =>
    (a.value_function_name == "get_value" || a.value_function_name == "get_text") &&
      (a.is_equal (retrieveByName g t a.value_function_name ("id_" ++ field))).isSome
  | .listSpec _ => true
  | .strSpec _ => true

example : daysFromCivil 1970 1 1 = 0 := by decide
example : daysFromCivil 2000 3 1 = 11017 := by decide
example : civilFromDays 0 = (1970, 1, 1) := by decide
example : civilFromDays 11016 = (2000, 2, 29) := by decide
example : strptimeYMDHM "1970-01-01 00:01" = some 60 := by decide
example : strptimeYMDHM "1970-01-32 00:01" = none := by decide
example : dateFormatYMD 11016 = "2000-02-29" := by decide
example : datetimeStr 90 = "1970-01-01 00:01:30" := by decide

/-- `self.elements['navigation']['logout']`. -/
def logout_locator : String := "//a[@class=\x27icn logout\x27]"

/-- `self.elements['controls']['save']`. -/
def save_locator : String := "//a[@class=\x27js-submit icn btn save def\x27]"

/-- `self.elements['controls']['message']['ok']`. -/
def okmsg_locator : String := "//div[@id=\x27opmsg\x27]/span[@class=\x27okmsg\x27]"

/-- `NewmanTestCase.logout`: click the logout link, then wait for the
login page.  Any driver exception propagates. -/
def logout {ε : Type} (d : Driver ε) : Except ε Unit :=
  match d.click logout_locator with
  | .error e => .error e
  | .ok _ => d.wait_for_element_present "id_username"

/-- `NewmanTestCase.save_form`: click save, then wait for the ok
message.  Any driver exception propagates. -/
def save_form {ε : Type} (d : Driver ε) : Except ε Unit :=
  match d.click save_locator with
  | .error e => .error e
  | .ok _ => d.wait_for_element_present okmsg_locator

/-- A driver whose waits time out while every other call succeeds; used to
exhibit propagation of a late-position driver exception at a concrete
input. -/
def slowDriver : Driver String where
  open_ := fun _ => .ok ()
  type_ := fun _ _ => .ok ()
  click := fun _ => .ok ()
  get_text := fun _ => .ok ""
  get_value := fun _ => .ok ""
  wait_for_element_present := fun _ => .error "timeout"
  wait_for_page_to_load := fun _ => .error "timeout"

/-- A driver that raises only when typing into the element `id_b`; used to
exhibit propagation from a mid-list `type` call. -/
def typoDriver : Driver String where
  open_ := fun _ => .ok ()
  type_ := fun locator _ => if locator = "id_b" then .error "boom" else .ok ()
  click := fun _ => .ok ()
  get_text := fun _ => .ok ""
  get_value := fun _ => .ok ""
  wait_for_element_present := fun _ => .ok ()
  wait_for_page_to_load := fun _ => .ok ()

/-- A driver that raises only on `get_text` of the second suggester item
of the field `tags`; used to exhibit propagation from inside the list
branch of `verify_form`, after an earlier field checked fine. -/
def textLossDriver : Driver String where
  open_ := fun _ => .ok ()
  type_ := fun _ _ => .ok ()
  click := fun _ => .ok ()
  get_text := fun locator =>
    if locator = suggester_selected_item "tags" 2 then .error "gone" else .ok "x"
  get_value := fun _ => .ok "x"
  wait_for_element_present := fun _ => .ok ()
  wait_for_page_to_load := fun _ => .ok ()

/-! ## Claims -/

/-- C1: for every expected datetime, tolerance, and parseable retrieved
string, `DateTimeAssert.is_equal` returns true iff the absolute difference
between the retrieved and the expected timestamp is at most the configured
`allowed_delta`, which defaults to one minute when none is supplied; the
absolute difference makes the result symmetric in which timestamp is
earlier. -/
theorem dateTimeAssert_is_equal_iff_within_delta (da : DateTimeAssert) (s : String)
    (r : Int) (hp : strptime da.date_format s = some r) :
    (da.is_equal s = some true ↔ |r - da.expected_value| ≤ da.allowed_delta) ∧
    ∀ e vfn fmt, (DateTimeAssert.init e vfn fmt none).allowed_delta = timedelta_minutes 1 := by
  refine ⟨?_, fun e vfn fmt => rfl⟩
  simp only [DateTimeAssert.is_equal, hp, gt_iff_lt, abs_le]
  split_ifs with h <;>
    simp only [Option.some.injEq, decide_eq_true_eq, eq_iff_iff] <;> omega

/-- Witness for C1 at a concrete input: `"1970-01-01 00:01"` parses to
sixty seconds past the epoch, and the default-tolerance assertion with
expected value the epoch succeeds at it. -/
theorem dateTimeAssert_is_equal_iff_within_delta_witness :
    strptime (DateTimeAssert.init 0 "get_value" "%Y-%m-%d %H:%M" none).date_format
        "1970-01-01 00:01" = some 60 ∧
    (((DateTimeAssert.init 0 "get_value" "%Y-%m-%d %H:%M" none).is_equal "1970-01-01 00:01" =
          some true ↔
        |(60 : Int) - (DateTimeAssert.init 0 "get_value" "%Y-%m-%d %H:%M" none).expected_value| ≤
          (DateTimeAssert.init 0 "get_value" "%Y-%m-%d %H:%M" none).allowed_delta) ∧
      ∀ e vfn fmt, (DateTimeAssert.init e vfn fmt none).allowed_delta = timedelta_minutes 1) :=
  ⟨by decide,
   dateTimeAssert_is_equal_iff_within_delta
     (DateTimeAssert.init 0 "get_value" "%Y-%m-%d %H:%M" none) "1970-01-01 00:01" 60 (by decide)⟩

/-- C3: for every date-valued field, the "Past 7 days" link carries exactly
two query-parameter constraints: `field__gte` bound to the date seven days
before the current date and `field__lte` bound to the current date, the
latter at end of day (23:59:59) when the field is a `DateTimeField`. -/
theorem past_seven_days_link_bounds (today : Int) (fspec : FilterSpec) :
    ((customized_date_field_filter today fspec).1.links.get? 2) =
      some (ugettext "Past 7 days",
        [(fspec.field_path ++ "__gte", dateFormatYMD (today - 7)),
         (fspec.field_path ++ "__lte",
           if fspec.field = FieldType.dateTimeField then dateFormatYMD today ++ " 23:59:59"
           else dateFormatYMD today)]) := rfl

/-- C4: for every date-valued field, the "Today" link carries exactly three
query-parameter constraints — `field__year`, `field__month`, `field__day` —
whose values are the string forms of the current date's year, month and
day. -/
theorem today_link_year_month_day (today : Int) (fspec : FilterSpec) :
    ((customized_date_field_filter today fspec).1.links.get? 1) =
      some (ugettext "Today",
        [(fspec.field_path ++ "__year", toString ((civilFromDays today).1)),
         (fspec.field_path ++ "__month", toString ((civilFromDays today).2.1)),
         (fspec.field_path ++ "__day", toString ((civilFromDays today).2.2))]) := rfl

/-- C6: for every date-valued field the handler emits five links, of which
exactly four carry date-range constraints — Today, Past 7 days, This month
and This year, each computed from the current date — while the remaining
"Any date" link carries none. -/
theorem date_filter_four_ranges (today : Int) (fspec : FilterSpec) :
    ((customized_date_field_filter today fspec).1.links =
      [ (ugettext "Any date", []),
        (ugettext "Today",
          [(fspec.field_path ++ "__year", toString ((civilFromDays today).1)),
           (fspec.field_path ++ "__month", toString ((civilFromDays today).2.1)),
           (fspec.field_path ++ "__day", toString ((civilFromDays today).2.2))]),
        (ugettext "Past 7 days",
          [(fspec.field_path ++ "__gte", dateFormatYMD (today - 7)),
           (fspec.field_path ++ "__lte",
             if fspec.field = FieldType.dateTimeField then dateFormatYMD today ++ " 23:59:59"
             else dateFormatYMD today)]),
        (ugettext "This month",
          [(fspec.field_path ++ "__year", toString ((civilFromDays today).1)),
           (fspec.field_path ++ "__month", toString ((civilFromDays today).2.1))]),
        (ugettext "This year",
          [(fspec.field_path ++ "__year", toString ((civilFromDays today).1))]) ]) ∧
    (((customized_date_field_filter today fspec).1.links.filter
        (fun l => !l.2.isEmpty)).map Prod.fst =
      [ugettext "Today", ugettext "Past 7 days", ugettext "This month", ugettext "This year"]) :=
  ⟨rfl, rfl⟩

/-- C9: the handler sets `date_params` to exactly the submitted query
parameters whose keys start with the field path followed by `"__"`,
preserving their values and order, and it returns `True` regardless of the
submitted parameters. -/
theorem date_params_filter_and_true (today : Int) (fspec : FilterSpec) :
    List.Sublist (customized_date_field_filter today fspec).1.date_params fspec.params ∧
    (∀ kv, kv ∈ (customized_date_field_filter today fspec).1.date_params ↔
      kv ∈ fspec.params ∧ startswith kv.1 (fspec.field_path ++ "__") = true) ∧
    (customized_date_field_filter today fspec).2 = true := by
  refine ⟨?_, ?_, rfl⟩
  · exact List.filter_sublist fspec.params
  · intro kv
    show kv ∈ fspec.params.filter (fun kv => startswith kv.1 (fspec.field_path ++ "__")) ↔ _
    rw [List.mem_filter]

/-- C5 counterexample: an object that already has an id — the integer
zero — does not keep its author: `if not obj.id` treats a zero id like a
missing one, so the save restamps the author with the requesting user. -/
theorem save_model_zero_id_counterexample :
    ({ id := some 0, author := "alice" } : DevMessage).id.isSome = true ∧
    (DevMessageAdmin.save_model "bob" { id := some 0, author := "alice" }).author = "bob" ∧
    "bob" ≠ "alice" := by decide

/-- C5 (amended): `DevMessageAdmin.save_model` stamps the author with the
requesting user exactly when the object's id is falsy — absent (a new,
never-saved record) or the integer zero — and saves the object unchanged
when its id is a nonzero integer. -/
theorem save_model_author_stamping (request_user : String) (obj : DevMessage) :
    ((obj.id = none ∨ obj.id = some 0) →
      DevMessageAdmin.save_model request_user obj = { obj with author := request_user }) ∧
    (∀ n : Int, obj.id = some n → n ≠ 0 →
      DevMessageAdmin.save_model request_user obj = obj) := by
  constructor
  · rintro (h | h) <;> simp [DevMessageAdmin.save_model, pyTruthyId, h]
  · intro n h hn
    simp [DevMessageAdmin.save_model, pyTruthyId, h, hn]

/-- Witness for the amended C5: a new record gets the author stamped, a
record with id 5 is saved untouched. -/
theorem save_model_author_stamping_witness :
    DevMessageAdmin.save_model "bob" { id := none, author := "alice" } =
      { id := none, author := "bob" } ∧
    DevMessageAdmin.save_model "bob" { id := some 5, author := "alice" } =
      { id := some 5, author := "alice" } :=
  ⟨(save_model_author_stamping "bob" { id := none, author := "alice" }).1 (Or.inl rfl),
   (save_model_author_stamping "bob" { id := some 5, author := "alice" }).2 5 rfl (by decide)⟩

/-- The `verify_form` loop splits over an append: the second part runs
exactly when the first completes without raising. -/
theorem verifyLoop_append {ε : Type} (d : Driver ε) (data1 data2 : List (String × FormSpec))
    (errs0 : List (String × PyValue × String)) :
    verifyLoop d (data1 ++ data2) errs0 =
      match verifyLoop d data1 errs0 with
      | .error e => .error e
      | .ok errs => verifyLoop d data2 errs := by
  induction data1 generalizing errs0 with
  | nil => rfl
  | cons p ps ih =>
    obtain ⟨f, sp⟩ := p
    show (match checkField d errs0 f sp with
      | .error e => (.error e : Except (PyErr ε) (List (String × PyValue × String)))
      | .ok errors2 => verifyLoop d (ps ++ data2) errors2) =
      match (match checkField d errs0 f sp with
        | .error e => (.error e : Except (PyErr ε) (List (String × PyValue × String)))
        | .ok errors2 => verifyLoop d ps errors2) with
      | .error e => .error e
      | .ok errs => verifyLoop d data2 errs
    cases hcf : checkField d errs0 f sp with
    | error e2 => rfl
    | ok errs2 => exact ih errs2

/-- A `get_text` exception at any position of the inner list loop
propagates as the same driver exception, whatever the driver returned for
the earlier items and whatever errors were already collected. -/
theorem listCheck_error_at {ε : Type} (d : Driver ε) (e : ε) (field : String)
    (whole : List String) (l1 : List String) (v : String) (l2 : List String) :
    ∀ (i : Nat) (errs : List (String × PyValue × String)),
    (∀ k, k < l1.length →
      ∃ txt, d.get_text (suggester_selected_item field (i + k + 1)) = .ok txt) →
    d.get_text (suggester_selected_item field (i + l1.length + 1)) = .error e →
    listCheck d field whole (l1 ++ v :: l2) i errs = .error (.driverError e) := by
  induction l1 with
  | nil =>
    intro i errs _ herr
    have herr' : d.get_text (suggester_selected_item field (i + 1)) = .error e := by
      simpa using herr
    show (match d.get_text (suggester_selected_item field (i + 1)) with
      | .error err =>
        (.error (.driverError err) : Except (PyErr ε) (List (String × PyValue × String)))
      | .ok text =>
        listCheck d field whole l2 (i + 1)
          (if text ≠ v then add_error errs field (.strList whole) text else errs)) = _
    rw [herr']
  | cons w ws ih =>
    intro i errs hok herr
    obtain ⟨txt, htxt⟩ := hok 0 (Nat.succ_pos ws.length)
    have htxt' : d.get_text (suggester_selected_item field (i + 1)) = .ok txt := by
      simpa using htxt
    have hcall : ∀ k, k < ws.length →
        ∃ txt2, d.get_text (suggester_selected_item field (i + 1 + k + 1)) = .ok txt2 := by
      intro k hk
      have h2 := hok (k + 1) (Nat.succ_lt_succ hk)
      have e1 : i + (k + 1) + 1 = i + 1 + k + 1 := by omega
      rw [e1] at h2
      exact h2
    have herr2 : d.get_text (suggester_selected_item field (i + 1 + ws.length + 1)) =
        .error e := by
      have e2 : i + (w :: ws).length + 1 = i + 1 + ws.length + 1 := by
        simp only [List.length_cons]
        omega
      rw [e2] at herr
      exact herr
    show (match d.get_text (suggester_selected_item field (i + 1)) with
      | .error err =>
        (.error (.driverError err) : Except (PyErr ε) (List (String × PyValue × String)))
      | .ok text =>
        listCheck d field whole (ws ++ v :: l2) (i + 1)
          (if text ≠ w then add_error errs field (.strList whole) text else errs)) = _
    rw [htxt']
    show listCheck d field whole (ws ++ v :: l2) (i + 1)
        (if txt ≠ w then add_error errs field (.strList whole) txt else errs) =
      .error (.driverError e)
    exact ih (i + 1) _ hcall herr2

/-- C7: every driver-call exception propagates unmodified through the
test helpers, whichever call raises and wherever it sits in the helper's
call sequence: each of `login`'s five calls (`open`, both `type`s,
`click`, `wait_for_page_to_load`), each of `logout`'s and `save_form`'s
two calls (`click`, `wait_for_element_present`), a `type` at any position
of `fill_fields`, and — in `verify_form` — a failing check of any field
after any successfully checked prefix, where each `isinstance` branch
(`get_value` on a plain or assertion field, `get_text` on an assertion
field, `get_text` on any item of a list field) surfaces the raising
call's exception as the same driver exception.  No helper catches, wraps,
retries or recovers. -/
theorem driver_exceptions_propagate (ε : Type) (d : Driver ε) (e : ε) :
    (d.open_ NEWMAN_URI = .error e → login d = .error e) ∧
    (d.open_ NEWMAN_URI = .ok () → d.type_ "id_username" USER_USERNAME = .error e →
      login d = .error e) ∧
    (d.open_ NEWMAN_URI = .ok () → d.type_ "id_username" USER_USERNAME = .ok () →
      d.type_ "id_password" USER_PASSWORD = .error e → login d = .error e) ∧
    (d.open_ NEWMAN_URI = .ok () → d.type_ "id_username" USER_USERNAME = .ok () →
      d.type_ "id_password" USER_PASSWORD = .ok () →
      d.click login_submit_locator = .error e → login d = .error e) ∧
    (d.open_ NEWMAN_URI = .ok () → d.type_ "id_username" USER_USERNAME = .ok () →
      d.type_ "id_password" USER_PASSWORD = .ok () →
      d.click login_submit_locator = .ok () →
      d.wait_for_page_to_load 30000 = .error e → login d = .error e) ∧
    (d.click logout_locator = .error e → logout d = .error e) ∧
    (d.click logout_locator = .ok () →
      d.wait_for_element_present "id_username" = .error e → logout d = .error e) ∧
    (d.click save_locator = .error e → save_form d = .error e) ∧
    (d.click save_locator = .ok () →
      d.wait_for_element_present okmsg_locator = .error e → save_form d = .error e) ∧
    (∀ (done : List (String × String)) (key value : String) (rest : List (String × String)),
      (∀ p ∈ done, d.type_ ("id_" ++ p.1) p.2 = .ok ()) →
      d.type_ ("id_" ++ key) value = .error e →
      fill_fields d (done ++ (key, value) :: rest) = .error e) ∧
    (∀ (data1 : List (String × FormSpec)) (errs : List (String × PyValue × String))
        (field : String) (sp : FormSpec) (data2 : List (String × FormSpec)),
      verifyLoop d data1 [] = .ok errs →
      checkField d errs field sp = .error (.driverError e) →
      verify_form d (data1 ++ (field, sp) :: data2) = .error (.driverError e)) ∧
    (∀ errs field v, d.get_value ("id_" ++ field) = .error e →
      checkField d errs field (FormSpec.strSpec v) = .error (.driverError e)) ∧
    (∀ errs field a, AssertSpec.value_function_name a = "get_value" →
      d.get_value ("id_" ++ field) = .error e →
      checkField d errs field (FormSpec.assertSpec a) = .error (.driverError e)) ∧
    (∀ errs field a, AssertSpec.value_function_name a = "get_text" →
      d.get_text ("id_" ++ field) = .error e →
      checkField d errs field (FormSpec.assertSpec a) = .error (.driverError e)) ∧
    (∀ errs field (l1 : List String) (v : String) (l2 : List String),
      (∀ k, k < l1.length →
        ∃ txt, d.get_text (suggester_selected_item field (k + 1)) = .ok txt) →
      d.get_text (suggester_selected_item field (l1.length + 1)) = .error e →
      checkField d errs field (FormSpec.listSpec (l1 ++ v :: l2)) =
        .error (.driverError e)) := by
  refine ⟨?_, ?_, ?_, ?_, ?_, ?_, ?_, ?_, ?_, ?_, ?_, ?_, ?_, ?_, ?_⟩
  · intro h1
    simp [login, h1]
  · intro h1 h2
    simp [login, h1, h2]
  · intro h1 h2 h3
    simp [login, h1, h2, h3]
  · intro h1 h2 h3 h4
    simp [login, h1, h2, h3, h4]
  · intro h1 h2 h3 h4 h5
    simp [login, h1, h2, h3, h4, h5]
  · intro h1
    simp [logout, h1]
  · intro h1 h2
    simp [logout, h1, h2]
  · intro h1
    simp [save_form, h1]
  · intro h1 h2
    simp [save_form, h1, h2]
  · intro done key value rest
    induction done with
    | nil =>
      intro _ herr
      simp [fill_fields, herr]
    | cons p ps ih =>
      intro hdone herr
      obtain ⟨k, v⟩ := p
      have hk : d.type_ ("id_" ++ k) v = .ok () := hdone (k, v) (List.mem_cons_self _ _)
      have hstep : fill_fields d (((k, v) :: ps) ++ (key, value) :: rest) =
          fill_fields d (ps ++ (key, value) :: rest) := by
        show (match d.type_ ("id_" ++ k) v with
          | .error err => (.error err : Except ε Unit)
          | .ok _ => fill_fields d (ps ++ (key, value) :: rest)) = _
        rw [hk]
      rw [hstep]
      exact ih (fun q hq => hdone q (List.mem_cons_of_mem _ hq)) herr
  · intro data1 errs field sp data2 hloop hcf
    show (match verifyLoop d (data1 ++ (field, sp) :: data2) [] with
      | .error err => (.error err : Except (PyErr ε) Unit)
      | .ok errors =>
        if errors.length > 0 then .error (.assertionError (get_formatted_form_errors errors))
        else .ok ()) = _
    rw [verifyLoop_append, hloop]
    show (match (match checkField d errs field sp with
      | .error err => (.error err : Except (PyErr ε) (List (String × PyValue × String)))
      | .ok errors2 => verifyLoop d data2 errors2) with
      | .error err => (.error err : Except (PyErr ε) Unit)
      | .ok errors =>
        if errors.length > 0 then .error (.assertionError (get_formatted_form_errors errors))
        else .ok ()) = _
    rw [hcf]
  · intro errs field v h
    simp [checkField, h]
  · intro errs field a hname h
    simp [checkField, getattrValueFunction, hname, h]
  · intro errs field a hname h
    simp [checkField, getattrValueFunction, hname, h]
  · intro errs field l1 v l2 hok herr
    have hok' : ∀ k, k < l1.length →
        ∃ txt, d.get_text (suggester_selected_item field (0 + k + 1)) = .ok txt := by
      intro k hk
      simpa using hok k hk
    have herr' : d.get_text (suggester_selected_item field (0 + l1.length + 1)) = .error e := by
      simpa using herr
    exact listCheck_error_at d e field (l1 ++ v :: l2) l1 v l2 0 errs hok' herr'

/-- Witness for C7 at late-position calls: `login` fails at its fifth
call (the page wait), `logout` and `save_form` at their second (the
element wait), `fill_fields` at its second field's `type`, and
`verify_form` at the second suggester item of its second field — each
surfacing the driver's own exception. -/
theorem driver_exceptions_propagate_witness :
    login slowDriver = .error "timeout" ∧
    logout slowDriver = .error "timeout" ∧
    save_form slowDriver = .error "timeout" ∧
    fill_fields typoDriver [("a", "1"), ("b", "2"), ("c", "3")] = .error "boom" ∧
    verify_form textLossDriver
        [("a", FormSpec.strSpec "x"), ("tags", FormSpec.listSpec ["p", "q"])] =
      .error (.driverError "gone") := by
  have hs := driver_exceptions_propagate String slowDriver "timeout"
  have ht := driver_exceptions_propagate String typoDriver "boom"
  have hg := driver_exceptions_propagate String textLossDriver "gone"
  refine ⟨?_, ?_, ?_, ?_, ?_⟩
  · exact hs.2.2.2.2.1 rfl rfl rfl rfl rfl
  · exact hs.2.2.2.2.2.2.1 rfl rfl
  · exact hs.2.2.2.2.2.2.2.2.1 rfl rfl
  · exact ht.2.2.2.2.2.2.2.2.2.1 [("a", "1")] "b" "2" [("c", "3")]
      (by intro p hp; rw [List.mem_singleton.mp hp]; rfl) rfl
  · exact hg.2.2.2.2.2.2.2.2.2.2.1 [("a", FormSpec.strSpec "x")] [] "tags"
      (FormSpec.listSpec ["p", "q"]) [] rfl rfl

/-! ### Helper lemmas: the error dict and the pure-driver loops -/

/-- Two consecutive `add_error` calls for the same field keep only the
second entry (dict assignment overwrites). -/
theorem add_error_last (errors : List (String × PyValue × String)) (field : String)
    (e1 : PyValue) (r1 : String) (e2 : PyValue) (r2 : String) :
    add_error (add_error errors field e1 r1) field e2 r2 = add_error errors field e2 r2 := by
  induction errors with
  | nil => simp [add_error]
  | cons hd tl ih =>
    obtain ⟨f, e, r⟩ := hd
    by_cases h : f = field
    · simp [add_error, h]
    · simp [add_error, h, ih]

/-- `add_error` for a fresh field appends the entry at the end. -/
theorem add_error_append (errors : List (String × PyValue × String)) (field : String)
    (e : PyValue) (r : String) (h : ∀ x ∈ errors, x.1 ≠ field) :
    add_error errors field e r = errors ++ [(field, e, r)] := by
  induction errors with
  | nil => rfl
  | cons hd tl ih =>
    have hf : hd.1 ≠ field := h hd (List.mem_cons_self _ _)
    obtain ⟨f, ev, rv⟩ := hd
    simp only [add_error, if_neg hf, List.cons_append, List.cons.injEq, true_and]
    exact ih (fun x hx => h x (List.mem_cons_of_mem _ hx))

/-- The inner list loop on the pure driver: no driver error, and the net
effect on the error dict is a single `add_error` carrying the whole
expected list and the text of the last mismatched item (or no change when
every remaining item matches). -/
theorem listCheck_pure (ε : Type) (g t : String → String) (field : String)
    (whole : List String) (rest : List String) (i : Nat)
    (errors : List (String × PyValue × String)) :
    listCheck (@pureDriver ε g t) field whole rest i errors =
      .ok (match lastMismatchIdx t field rest i with
        | none => errors
        | some j =>
          add_error errors field (.strList whole) (t (suggester_selected_item field (j + 1)))) := by
  induction rest generalizing i errors with
  | nil => rfl
  | cons v vs ih =>
    have hstep : listCheck (@pureDriver ε g t) field whole (v :: vs) i errors =
        listCheck (@pureDriver ε g t) field whole vs (i + 1)
          (if t (suggester_selected_item field (i + 1)) ≠ v then
            add_error errors field (.strList whole) (t (suggester_selected_item field (i + 1)))
          else errors) := rfl
    rw [hstep, ih]
    by_cases hmis : t (suggester_selected_item field (i + 1)) ≠ v
    · cases hlast : lastMismatchIdx t field vs (i + 1) with
      | none => simp [lastMismatchIdx, hlast, hmis]
      | some j => simp [lastMismatchIdx, hlast, hmis, add_error_last]
    · cases hlast : lastMismatchIdx t field vs (i + 1) with
      | none => simp [lastMismatchIdx, hlast, hmis]
      | some j => simp [lastMismatchIdx, hlast, hmis]

/-- An error entry exists for a field exactly when the field mismatches. -/
theorem specErrorEntry_isSome (g t : String → String) (field : String) (sp : FormSpec) :
    (specErrorEntry g t field sp).isSome = specMismatches g t field sp := by
  by_cases h : specMismatches g t field sp = true <;> simp [specErrorEntry, h]

/-- One iteration of the `verify_form` loop on the pure driver, for a
field whose check cannot raise: the result is `ok`, and the error dict
gains exactly the field's error entry (when it mismatches). -/
theorem checkField_pure (ε : Type) (g t : String → String) (field : String)
    (sp : FormSpec) (errors : List (String × PyValue × String))
    (hok : specOk g t field sp = true) :
    checkField (@pureDriver ε g t) errors field sp =
      .ok (match specErrorEntry g t field sp with
        | none => errors
        | some entry => add_error errors entry.1 entry.2.1 entry.2.2) := by
  cases sp with
  | strSpec v =>
    by_cases h : g ("id_" ++ field) = v
    · simp [checkField, pureDriver, specErrorEntry, specMismatches, h]
    · simp [checkField, pureDriver, specErrorEntry, specMismatches, specRetrieved, specExpected, h]
  | listSpec l =>
    have hcf : checkField (@pureDriver ε g t) errors field (.listSpec l) =
        listCheck (@pureDriver ε g t) field l l 0 errors := rfl
    rw [hcf, listCheck_pure]
    cases hlast : lastMismatchIdx t field l 0 with
    | none => simp [specErrorEntry, specMismatches, hlast]
    | some j => simp [specErrorEntry, specMismatches, specRetrieved, specExpected, hlast]
  | assertSpec a =>
    simp only [specOk, Bool.and_eq_true, Bool.or_eq_true, beq_iff_eq] at hok
    obtain ⟨hname, hsome⟩ := hok
    obtain ⟨b, hb⟩ := Option.isSome_iff_exists.mp hsome
    rcases hname with hv | hv
    · have htext : retrieveByName g t a.value_function_name ("id_" ++ field) =
          g ("id_" ++ field) := by
        simp [retrieveByName, hv]
      rw [htext] at hb
      cases b
      · simp [checkField, getattrValueFunction, hv, pureDriver, hb,
          specErrorEntry, specMismatches, specRetrieved, specExpected, retrieveByName]
      · simp [checkField, getattrValueFunction, hv, pureDriver, hb,
          specErrorEntry, specMismatches, retrieveByName]
    · have hne : a.value_function_name ≠ "get_value" := by
        rw [hv]; decide
      have htext : retrieveByName g t a.value_function_name ("id_" ++ field) =
          t ("id_" ++ field) := by
        simp [retrieveByName, hv]
      rw [htext] at hb
      cases b
      · simp [checkField, getattrValueFunction, hv, hne, pureDriver, hb,
          specErrorEntry, specMismatches, specRetrieved, specExpected, retrieveByName]
      · simp [checkField, getattrValueFunction, hv, hne, pureDriver, hb,
          specErrorEntry, specMismatches, retrieveByName]

/-- The `verify_form` loop on the pure driver, when no check raises and
the dict keys of `data` are unique (as they are for a Python dict): every
field is checked, and the final error dict is the starting one extended
with exactly one entry per mismatched field of `data`. -/
theorem verifyLoop_pure (ε : Type) (g t : String → String)
    (data : List (String × FormSpec)) (errors : List (String × PyValue × String))
    (hok : ∀ p ∈ data, specOk g t p.1 p.2 = true)
    (hnd : (data.map Prod.fst).Nodup)
    (hdisj : ∀ x ∈ errors, ∀ p ∈ data, x.1 ≠ p.1) :
    verifyLoop (@pureDriver ε g t) data errors =
      .ok (errors ++ data.filterMap (fun p => specErrorEntry g t p.1 p.2)) := by
  induction data generalizing errors with
  | nil => simp [verifyLoop]
  | cons p ps ih =>
    obtain ⟨field, sp⟩ := p
    have hnd' : (ps.map Prod.fst).Nodup := (List.nodup_cons.mp hnd).2
    have hfield_not : field ∉ ps.map Prod.fst := (List.nodup_cons.mp hnd).1
    have hstep : verifyLoop (@pureDriver ε g t) ((field, sp) :: ps) errors =
        match checkField (@pureDriver ε g t) errors field sp with
        | .error e => .error e
        | .ok errors2 => verifyLoop (@pureDriver ε g t) ps errors2 := rfl
    rw [hstep, checkField_pure ε g t field sp errors (hok (field, sp) (List.mem_cons_self _ _))]
    cases hentry : specErrorEntry g t field sp with
    | none =>
      show verifyLoop (@pureDriver ε g t) ps errors = _
      rw [ih errors (fun q hq => hok q (List.mem_cons_of_mem _ hq)) hnd'
        (fun x hx q hq => hdisj x hx q (List.mem_cons_of_mem _ hq))]
      simp [List.filterMap_cons, hentry]
    | some entry =>
      have hkey : entry.1 = field := by
        unfold specErrorEntry at hentry
        split at hentry
        · cases hentry; rfl
        · cases hentry
      have happ : add_error errors entry.1 entry.2.1 entry.2.2 = errors ++ [entry] := by
        rw [hkey]
        have := add_error_append errors field entry.2.1 entry.2.2
          (fun x hx => hdisj x hx (field, sp) (List.mem_cons_self _ _))
        rw [this]
        simp [← hkey]
      show verifyLoop (@pureDriver ε g t) ps (add_error errors entry.1 entry.2.1 entry.2.2) = _
      rw [happ, ih (errors ++ [entry]) (fun q hq => hok q (List.mem_cons_of_mem _ hq)) hnd'
        (by
          intro x hx q hq
          rcases List.mem_append.mp hx with hx1 | hx2
          · exact hdisj x hx1 q (List.mem_cons_of_mem _ hq)
          · have hxe : x = entry := by simpa using hx2
            subst hxe
            rw [hkey]
            intro hcontra
            exact hfield_not (hcontra ▸ List.mem_map_of_mem Prod.fst hq))]
      simp [List.filterMap_cons, hentry, List.append_assoc]

/-- The collected error entries are in bijection with the mismatched
fields: one entry per mismatched field of `data`, never more. -/
theorem filterMap_entries_length (g t : String → String) (data : List (String × FormSpec)) :
    (data.filterMap fun p => specErrorEntry g t p.1 p.2).length =
      (data.filter fun p => specMismatches g t p.1 p.2).length := by
  induction data with
  | nil => rfl
  | cons p ps ih =>
    rw [List.filterMap_cons, List.filter_cons]
    by_cases h : specMismatches g t p.1 p.2 = true
    · have he : specErrorEntry g t p.1 p.2 =
          some (p.1, specExpected p.2, specRetrieved g t p.1 p.2) := by
        simp [specErrorEntry, h]
      rw [he]
      simp [h, ih]
    · have he : specErrorEntry g t p.1 p.2 = none := by
        simp [specErrorEntry, h]
      rw [he]
      simp [h, ih]

/-- C2: on a driver whose calls do not raise, and for form data none of
whose checks raises (with the unique keys of a Python dict),
`verify_form` raises an `AssertionError` iff at least one checked field's
retrieved value mismatches its expected value; every field of `data` is
checked before raising, and the single failure message is the formatted
list of every mismatched field together with that field's expected and
retrieved values. -/
theorem verify_form_collects_all_mismatches (ε : Type) (g t : String → String)
    (data : List (String × FormSpec))
    (hok : ∀ p ∈ data, specOk g t p.1 p.2 = true)
    (hnd : (data.map Prod.fst).Nodup) :
    (verify_form (@pureDriver ε g t) data =
      if (data.filterMap fun p => specErrorEntry g t p.1 p.2).length > 0 then
        .error (.assertionError (get_formatted_form_errors
          (data.filterMap fun p => specErrorEntry g t p.1 p.2)))
      else .ok ()) ∧
    ((∃ msg, verify_form (@pureDriver ε g t) data = .error (.assertionError msg)) ↔
      ∃ p ∈ data, specMismatches g t p.1 p.2 = true) := by
  have hloop := verifyLoop_pure ε g t data [] hok hnd (by intro x hx; cases hx)
  rw [List.nil_append] at hloop
  have hmain : verify_form (@pureDriver ε g t) data =
      if (data.filterMap fun p => specErrorEntry g t p.1 p.2).length > 0 then
        .error (.assertionError (get_formatted_form_errors
          (data.filterMap fun p => specErrorEntry g t p.1 p.2)))
      else .ok () := by
    show (match verifyLoop (@pureDriver ε g t) data [] with
      | .error e => (.error e : Except (PyErr ε) Unit)
      | .ok errors =>
        if errors.length > 0 then .error (.assertionError (get_formatted_form_errors errors))
        else .ok ()) = _
    rw [hloop]
  refine ⟨hmain, ?_⟩
  rw [hmain]
  by_cases hlen : (data.filterMap fun p => specErrorEntry g t p.1 p.2).length > 0
  · rw [if_pos hlen]
    constructor
    · intro _
      have hne : data.filterMap (fun p => specErrorEntry g t p.1 p.2) ≠ [] := by
        intro h0
        rw [h0] at hlen
        simp at hlen
      obtain ⟨entry, hentry⟩ := List.exists_mem_of_ne_nil _ hne
      obtain ⟨p, hp, hpe⟩ := List.mem_filterMap.mp hentry
      refine ⟨p, hp, ?_⟩
      rw [← specErrorEntry_isSome, hpe]
      rfl
    · intro _
      exact ⟨_, rfl⟩
  · rw [if_neg hlen]
    constructor
    · rintro ⟨msg, hmsg⟩
      simp at hmsg
    · rintro ⟨p, hp, hmis⟩
      exfalso
      apply hlen
      have he : specErrorEntry g t p.1 p.2 =
          some (p.1, specExpected p.2, specRetrieved g t p.1 p.2) := by
        simp [specErrorEntry, hmis]
      have hmem : (p.1, specExpected p.2, specRetrieved g t p.1 p.2) ∈
          data.filterMap (fun q => specErrorEntry g t q.1 q.2) :=
        List.mem_filterMap.mpr ⟨p, hp, he⟩
      exact List.length_pos.mpr (List.ne_nil_of_mem hmem)

/-- Witness for C2: three plain fields of which the driver mismatches two;
the single raised message lists both mismatched fields with their expected
and retrieved values. -/
theorem verify_form_collects_all_mismatches_witness :
    verify_form
        (@pureDriver Unit (fun s => if s = "id_a" then "x" else "BAD") (fun _ => ""))
        [("a", FormSpec.strSpec "x"), ("b", FormSpec.strSpec "y"), ("c", FormSpec.strSpec "z")] =
      .error (.assertionError
        ("Form validation for field b was expecting y, but got BAD\n" ++
         "Form validation for field c was expecting z, but got BAD")) :=
  ((verify_form_collects_all_mismatches Unit
      (fun s => if s = "id_a" then "x" else "BAD") (fun _ => "")
      [("a", FormSpec.strSpec "x"), ("b", FormSpec.strSpec "y"), ("c", FormSpec.strSpec "z")]
      (by decide) (by decide)).1).trans (by rfl)

/-- C10: the errors dict is keyed by field name, so a list-valued
expectation with several mismatched items contributes a single entry
holding the whole expected list and only the retrieved text of the last
mismatched item; in general the collected errors carry exactly one
entry — one message line — per mismatched field, never more. -/
theorem list_mismatch_entry_keeps_last (ε : Type) (g t : String → String) (field : String)
    (l : List String) (j : Nat) (data : List (String × FormSpec))
    (hlast : lastMismatchIdx t field l 0 = some j)
    (hok : ∀ p ∈ data, specOk g t p.1 p.2 = true)
    (hnd : (data.map Prod.fst).Nodup) :
    verify_form (@pureDriver ε g t) [(field, FormSpec.listSpec l)] =
      .error (.assertionError (get_formatted_form_errors
        [(field, PyValue.strList l, t (suggester_selected_item field (j + 1)))])) ∧
    verifyLoop (@pureDriver ε g t) data [] =
      .ok (data.filterMap fun p => specErrorEntry g t p.1 p.2) ∧
    (data.filterMap fun p => specErrorEntry g t p.1 p.2).length =
      (data.filter fun p => specMismatches g t p.1 p.2).length := by
  refine ⟨?_, ?_, filterMap_entries_length g t data⟩
  · have hc := listCheck_pure ε g t field l l 0 []
    rw [hlast] at hc
    have hloop : verifyLoop (@pureDriver ε g t) [(field, FormSpec.listSpec l)] [] =
        .ok [(field, PyValue.strList l, t (suggester_selected_item field (j + 1)))] := by
      show (match checkField (@pureDriver ε g t) [] field (FormSpec.listSpec l) with
        | .error e => (.error e : Except (PyErr ε) _)
        | .ok errors2 => verifyLoop (@pureDriver ε g t) [] errors2) = _
      have hcf : checkField (@pureDriver ε g t) [] field (FormSpec.listSpec l) =
          listCheck (@pureDriver ε g t) field l l 0 [] := rfl
      rw [hcf, hc]
      rfl
    show (match verifyLoop (@pureDriver ε g t) [(field, FormSpec.listSpec l)] [] with
      | .error e => (.error e : Except (PyErr ε) Unit)
      | .ok errors =>
        if errors.length > 0 then .error (.assertionError (get_formatted_form_errors errors))
        else .ok ()) = _
    rw [hloop]
    rfl
  · have h := verifyLoop_pure ε g t data [] hok hnd (by intro x hx; cases hx)
    simpa using h

/-- Witness for C10: a three-item suggester list whose first and third
items mismatch yields a single message line holding the joined expected
list and only the third (last mismatched) retrieved text. -/
theorem list_mismatch_entry_keeps_last_witness :
    verify_form
        (@pureDriver Unit (fun _ => "")
          (fun s => if s = suggester_selected_item "tags" 2 then "b" else "ZZZ"))
        [("tags", FormSpec.listSpec ["a", "b", "c"])] =
      .error (.assertionError
        "Form validation for field tags was expecting abc, but got ZZZ") :=
  ((list_mismatch_entry_keeps_last Unit (fun _ => "")
      (fun s => if s = suggester_selected_item "tags" 2 then "b" else "ZZZ")
      "tags" ["a", "b", "c"] 2 [("tags", FormSpec.listSpec ["a", "b", "c"])]
      (by decide) (by decide) (by decide)).1).trans (by rfl)

/-- C8: a retrieved string that does not parse under the configured date
format makes `DateTimeAssert.is_equal` raise the parse error instead of
returning false, and in `verify_form` such a field aborts verification
with that exception: a mismatch already collected on an earlier field is
discarded rather than reported, and later fields are never reached. -/
theorem unparseable_datetime_aborts_verification (ε : Type) (g t : String → String)
    (f1 : String) (v1 : String) (f2 : String) (da : DateTimeAssert)
    (rest : List (String × FormSpec))
    (hvfn : da.value_function_name = "get_value")
    (hmis : g ("id_" ++ f1) ≠ v1)
    (hparse : strptime da.date_format (g ("id_" ++ f2)) = none) :
    (∀ (da2 : DateTimeAssert) (s : String),
      strptime da2.date_format s = none → da2.is_equal s = none) ∧
    verify_form (@pureDriver ε g t)
        ((f1, FormSpec.strSpec v1) ::
          (f2, FormSpec.assertSpec (AssertSpec.dtime da)) :: rest) =
      .error PyErr.valueError := by
  constructor
  · intro da2 s h
    simp [DateTimeAssert.is_equal, h]
  · simp [verify_form, verifyLoop, checkField, pureDriver, getattrValueFunction,
      AssertSpec.value_function_name, hvfn, AssertSpec.is_equal, DateTimeAssert.is_equal,
      hparse, hmis]

/-- Witness for C8: a mismatching plain field followed by a datetime
assertion whose retrieved text "nope" does not parse; `verify_form` raises
the parse error, not an assertion failure. -/
theorem unparseable_datetime_aborts_verification_witness :
    verify_form
        (@pureDriver Unit (fun s => if s = "id_a" then "X" else "nope") (fun _ => ""))
        [("a", FormSpec.strSpec "YES"),
         ("b", FormSpec.assertSpec (AssertSpec.dtime
            (DateTimeAssert.init 0 "get_value" "%Y-%m-%d %H:%M" none)))] =
      .error PyErr.valueError :=
  (unparseable_datetime_aborts_verification Unit
      (fun s => if s = "id_a" then "X" else "nope") (fun _ => "")
      "a" "YES" "b" (DateTimeAssert.init 0 "get_value" "%Y-%m-%d %H:%M" none) []
      rfl (by decide) (by decide)).2
